import Mathlib

/-!
Verification of `transcribe.py` (SJTranscribe): a batch MP3-to-text
transcription script.  The definitions below are a shallow embedding of the
script's functions; the external Whisper model is an opaque function supplied
by the environment, the filesystem is explicit data.  POSIX path semantics are
used throughout (`pathlib` on Linux: `/` separator, case-sensitive `glob`).
-/

namespace SJT

/-- `MODEL_SIZE = "base"` (transcribe.py line 33). -/
def MODEL_SIZE : String := "base"

/-- Index of the last occurrence of `c` (Python `str.rfind`, as used by
`pathlib` to compute `suffix`/`stem`). -/
def lastIdx (c : Char) : List Char → Option Nat
  | [] => none
  | a :: rest =>
    match lastIdx c rest with
    | some i => some (i + 1)
    | none => if a = c then some 0 else none

/-- Split a character list on a separator character. -/
def splitOnChar (sep : Char) : List Char → List (List Char)
  | [] => [[]]
  | c :: rest =>
    match splitOnChar sep rest with
    | [] => if c = sep then [[], []] else [[c]]
    | g :: gs => if c = sep then [] :: g :: gs else (c :: g) :: gs

/-- Python `str.lower()` (ASCII range, which covers every use in the script). -/
def strLower (s : String) : String :=
  String.mk (s.data.map Char.toLower)

/-- `pathlib.PurePath.name` (POSIX flavour): the final path component, with
empty and `"."` components dropped. -/
def pyName (p : String) : String :=
  String.mk (((splitOnChar '/' p.data).filter
    (fun s => s != [] && s != ['.'])).getLastD [])

/-- `pathlib.PurePath.suffix`: the extension of the final component.  pathlib
returns `name[i:]` for `i = name.rfind('.')` when `0 < i < len(name) - 1`,
else the empty string (so `".mp3"` and `"a."` have no suffix). -/
def pySuffix (p : String) : String :=
  let n := (pyName p).data
  match lastIdx '.' n with
  | some i => if 0 < i && i < n.length - 1 then String.mk (n.drop i) else ""
  | none => ""

/-- `pathlib.PurePath.stem`: the final component without its suffix. -/
def pyStem (p : String) : String :=
  let n := (pyName p).data
  match lastIdx '.' n with
  | some i => if 0 < i && i < n.length - 1 then String.mk (n.take i) else String.mk n
  | none => String.mk n

/-- Python `str.isspace` on the ASCII range (the characters removed by
`str.strip()`): space, tab, newline, carriage return, vertical tab, form
feed. -/
def pyIsSpace (c : Char) : Bool :=
  c = ' ' || c = '\t' || c = '\n' || c = '\r' || c.toNat = 11 || c.toNat = 12

/-- Python `str.strip()`: remove leading and trailing whitespace. -/
def pyStrip (s : String) : String :=
  String.mk (((s.data.dropWhile pyIsSpace).reverse.dropWhile pyIsSpace).reverse)

/-- Whether the glob pattern `*<tail>` matches an entry name (the regex
`fnmatch.translate` produces is `.*` followed by the literal tail, so the
match succeeds exactly when the name ends with the tail; on POSIX the match
is case-sensitive). -/
def globTailMatch (tail : String) (name : String) : Bool :=
  name.data.drop (name.data.length - tail.data.length) == tail.data

/-- The filesystem status of a target path as observed by `Path.is_file` /
`Path.is_dir`; a directory carries the names of the entries directly inside
it, in directory (scandir) order. -/
inductive PathKind
  | file
  | dir (entries : List String)
  | missing
deriving DecidableEq

/-- Python `list.sort(key=lambda x: x.name.lower())` on entry names: a stable
sort by the case-insensitively lowered name (insertion sort with a non-strict
comparison is stable, like Python's sort). -/
def pySortByLowerName (names : List String) : List String :=
  names.insertionSort (fun a b => (strLower a).data ≤ (strLower b).data)

/-- `get_mp3_files` (transcribe.py lines 47-64) applied to a target `path`
whose filesystem status is `kind`.  A file is accepted when
`path.suffix.lower() == ".mp3"`; a directory is globbed with `"*.mp3"` and
`"*.MP3"`, the two result lists are concatenated, sorted by lowered name, and
rendered as `str(f)` (directory, separator, entry name). -/
def get_mp3_files (path : String) (kind : PathKind) : List String :=
  match kind with
  | .file => if strLower (pySuffix path) = ".mp3" then [path] else []
  | .dir entries =>
    let mp3_files := entries.filter (globTailMatch ".mp3") ++ entries.filter (globTailMatch ".MP3")
    (pySortByLowerName mp3_files).map (fun name => path ++ "/" ++ name)
  | .missing => []

/-- A Python exception value.  `runtime msg` stands for an arbitrary exception
raised by the model call or by `open`/`write`; `transcriptionError cause` is
the wrapper error type the specification describes (the script itself never
constructs it). -/
inductive PyExc
  | runtime (msg : String)
  | transcriptionError (cause : PyExc)
deriving DecidableEq

/-- Whether an exception value is the `TranscriptionError` wrapper the
specification describes. -/
def PyExc.isTranscriptionError : PyExc → Bool
  | .transcriptionError _ => true
  | _ => false

instance {ε α : Type} [DecidableEq ε] [DecidableEq α] : DecidableEq (Except ε α) := fun a b =>
  match a, b with
  | .ok x, .ok y =>
    if h : x = y then isTrue (by rw [h]) else isFalse (fun he => h (Except.ok.inj he))
  | .error x, .error y =>
    if h : x = y then isTrue (by rw [h]) else isFalse (fun he => h (Except.error.inj he))
  | .ok _, .error _ => isFalse (fun he => Except.noConfusion he)
  | .error _, .ok _ => isFalse (fun he => Except.noConfusion he)

/-- A loaded model handle: `model.transcribe(path)["text"]`, or the exception
the model call raises for that path. -/
abbrev Model : Type := String → Except PyExc String

/-- The contents of the output directory: output path paired with file
content, most recent write first. -/
abbrev Store : Type := List (String × String)

/-- `open(path, "w")` followed by `f.write`: replaces any existing file at
that path with the new content (no merge, no versioning). -/
def Store.write (st : Store) (path content : String) : Store :=
  (path, content) :: st.filter (fun kv => kv.1 != path)

/-- Read the file at `path`, if present. -/
def Store.read (st : Store) (path : String) : Option String :=
  (st.find? (fun kv => kv.1 == path)).map (fun kv => kv.2)

/-- `OUTPUT_FOLDER` (transcribe.py line 38), `SCRIPT_DIR / "output"` rendered
relative to the script directory. -/
def OUTPUT_FOLDER : String := "output"

/-- The separator `"=" * 60` written by `transcribe_file`. -/
def sepLine : String := String.mk (List.replicate 60 '=')

/-- The artifact body `transcribe_file` writes (lines 88-93): the five
`f.write` calls concatenated; `text` is the already-stripped transcript. -/
def artifactContent (audio_path ts text : String) : String :=
  "Transcription of: " ++ pyName audio_path ++ "\n" ++
  "Generated on: " ++ ts ++ "\n" ++
  "Model used: whisper-" ++ MODEL_SIZE ++ "\n" ++
  sepLine ++ "\n\n" ++
  text

/-- `transcribe_file` (transcribe.py lines 67-98): compute the output path
`output_dir / (stem + ".txt")`, call `model.transcribe` (which may raise),
strip the text, open and write the artifact (`writeErr` tells whether the
`open`/`write` at a given output path raises), and return the output path.
Exceptions propagate to the caller un-wrapped; `ts` is `datetime.now()`
formatted at the time of the call, `st` the output directory contents. -/
def transcribe_file (model : Model) (audio_path : String) (output_dir : String)
    (writeErr : String → Option PyExc) (ts : String) (st : Store) :
    Except PyExc (String × Store) :=
  let output_path := output_dir ++ "/" ++ pyStem audio_path ++ ".txt"
  match model audio_path with
  | .error e => .error e
  | .ok raw =>
    let text := pyStrip raw
    match writeErr output_path with
    | some e => .error e
    | none => .ok (output_path, st.write output_path (artifactContent audio_path ts text))

/-- The environment a run interacts with: `whisper.load_model` (returning the
model handle for a given size), the write behaviour of the output directory,
and the wall clock (`datetime.now()` at the i-th transcription call). -/
structure Env where
  load : String → Model
  writeErr : String → Option PyExc
  ts : Nat → String

/-- Observable events of a run, in order: the single `whisper.load_model`
call, each saved artifact (`[OK] Saved transcription to: ...`), and each
caught per-file failure (`[ERROR] Error transcribing ...`). -/
inductive Event
  | loadedModel
  | wrote (output_path : String)
  | fileError (audio_path : String)
deriving DecidableEq

/-- The per-file batch loop of `main` (lines 155-162): process each file in
order; `transcribe_file` is wrapped in `try/except Exception`, so a failure is
recorded and the loop continues with the next file.  Returns the
`output_files` list, the final output directory contents, and the events. -/
def batchLoop (model : Model) (writeErr : String → Option PyExc) (ts : Nat → String) :
    List String → Nat → Store → List String × Store × List Event
  | [], _, st => ([], st, [])
  | f :: rest, idx, st =>
    match transcribe_file model f OUTPUT_FOLDER writeErr (ts idx) st with
    | .ok res =>
      let r := batchLoop model writeErr ts rest (idx + 1) res.2
      (res.1 :: r.1, r.2.1, Event.wrote res.1 :: r.2.2)
    | .error _ =>
      let r := batchLoop model writeErr ts rest (idx + 1) st
      (r.1, r.2.1, Event.fileError f :: r.2.2)

/-- The observable outcome of one run of the script. -/
structure RunResult where
  exitCode : Nat
  events : List Event
  output_files : List String
  store : Store
  /-- The end-of-run summary `(successes, total attempted)`, printed only when
  the batch ran. -/
  summary : Option (Nat × Nat)
deriving DecidableEq

/-- `main` (transcribe.py lines 101-172) from the point where the target path
and its filesystem status are fixed: discover the MP3 files; if none were
found print the usage text and `sys.exit(1)` (no model load, no writes);
otherwise load the model once, run the batch loop over every file with the
single handle, and report `len(output_files)` of `len(mp3_files)` as the
summary.  `st` is the initial output directory contents. -/
def main (env : Env) (target : String) (kind : PathKind) (st : Store) : RunResult :=
  let mp3_files := get_mp3_files target kind
  if mp3_files.isEmpty then
    { exitCode := 1, events := [], output_files := [], store := st, summary := none }
  else
    let model := env.load MODEL_SIZE
    let r := batchLoop model env.writeErr env.ts mp3_files 0 st
    { exitCode := 0, events := Event.loadedModel :: r.2.2, output_files := r.1,
      store := r.2.1, summary := some (r.1.length, mp3_files.length) }

/-- Whether the processing of a single file fails (its `transcribe_file` call
raises): either the model call raises, or writing the artifact raises. -/
def fileFails (model : Model) (writeErr : String → Option PyExc) (f : String) : Bool :=
  match model f with
  | .error _ => true
  | .ok _ => (writeErr (OUTPUT_FOLDER ++ "/" ++ pyStem f ++ ".txt")).isSome

/-- The acceptance predicate in the specification's words: the entry's
extension matches `".mp3"` case-insensitively.  Stated for comparison with
what `get_mp3_files` actually selects in a directory. -/
def specExtMatchesMp3 (name : String) : Bool :=
  strLower (pySuffix name) == ".mp3"

/-- A concrete environment for instantiations: the model raises on
`"d/f2.mp3"` and returns `" text "` for every other path; writes always
succeed; the clock is constant. -/
def envB : Env where
  load _ := fun p =>
    if p == "d/f2.mp3" then Except.error (PyExc.runtime "boom") else Except.ok " text "
  writeErr _ := none
  ts _ := "2024-01-01 12:00:00"

/-! ### Supporting lemmas -/

theorem splitOnChar_ne_nil (c : Char) (l : List Char) : splitOnChar c l ≠ [] := by
  cases l with
  | nil => simp [splitOnChar]
  | cons a rest =>
    simp only [splitOnChar]
    rcases splitOnChar c rest with _ | ⟨g, gs⟩ <;>
      by_cases hac : a = c <;> simp [hac]

theorem splitOnChar_sep_cons (c : Char) (ys : List Char) :
    splitOnChar c (c :: ys) = [] :: splitOnChar c ys := by
  simp only [splitOnChar]
  rcases h : splitOnChar c ys with _ | ⟨g, gs⟩
  · exact absurd h (splitOnChar_ne_nil c ys)
  · simp

theorem splitOnChar_clean_append (c : Char) (xs ys : List Char) (h : c ∉ xs) :
    splitOnChar c (xs ++ ys) =
      (xs ++ (splitOnChar c ys).headI) :: (splitOnChar c ys).tail := by
  induction xs with
  | nil =>
    rcases h' : splitOnChar c ys with _ | ⟨g, gs⟩
    · exact absurd h' (splitOnChar_ne_nil c ys)
    · simp [h']
  | cons a xs ih =>
    have ha : a ≠ c := fun he => h (he ▸ List.mem_cons_self a xs)
    have h' : c ∉ xs := fun hm => h (List.mem_cons_of_mem a hm)
    simp only [List.cons_append, splitOnChar, List.append_eq]
    rw [ih h']
    simp [ha]

theorem splitOnChar_line (c : Char) (xs ys : List Char) (h : c ∉ xs) :
    splitOnChar c (xs ++ c :: ys) = xs :: splitOnChar c ys := by
  rw [splitOnChar_clean_append c xs (c :: ys) h, splitOnChar_sep_cons]
  simp

theorem Store.read_write_self (st : Store) (p c : String) :
    (st.write p c).read p = some c := by
  simp [Store.write, Store.read]

theorem find?_key_filter_ne (st : Store) (p q : String) (h : p ≠ q) :
    (st.filter (fun kv => kv.1 != q)).find? (fun kv => kv.1 == p) =
      st.find? (fun kv => kv.1 == p) := by
  induction st with
  | nil => rfl
  | cons kv rest ih =>
    by_cases hk : kv.1 = q
    · have hkp : ¬ kv.1 = p := fun he => h (he ▸ hk)
      simp only [List.filter_cons, bne_iff_ne, ne_eq, hk, not_true_eq_false,
        decide_False, if_false, ih]
      exact (List.find?_cons_of_neg _ (by simp [hkp])).symm
    · by_cases hp : kv.1 = p <;> simp [List.filter_cons, hk, hp, ih, h]

theorem Store.read_write_ne (st : Store) (p q c : String) (h : p ≠ q) :
    (st.write q c).read p = st.read p := by
  simp only [Store.write, Store.read]
  have h1 : List.find? (fun kv => kv.1 == p) ((q, c) :: List.filter (fun kv => kv.1 != q) st)
      = List.find? (fun kv => kv.1 == p) (List.filter (fun kv => kv.1 != q) st) :=
    List.find?_cons_of_neg _ (by simp only [beq_iff_eq]; exact fun he => h he.symm)
  rw [h1, find?_key_filter_ne st p q h]

theorem Store.read_write_isSome (st : Store) (p q c : String)
    (h : (st.read p).isSome) : ((st.write q c).read p).isSome := by
  by_cases hpq : p = q
  · subst hpq; simp [Store.read_write_self]
  · rw [Store.read_write_ne st p q c hpq]; exact h

theorem batchLoop_output_files (model : Model) (we : String → Option PyExc) (ts : Nat → String)
    (files : List String) : ∀ (idx : Nat) (st : Store),
    (batchLoop model we ts files idx st).1 =
      (files.filter (fun f => !fileFails model we f)).map
        (fun f => OUTPUT_FOLDER ++ "/" ++ pyStem f ++ ".txt") := by
  induction files with
  | nil => intro idx st; rfl
  | cons f rest ih =>
    intro idx st
    rcases hm : model f with e | raw
    · have hf : fileFails model we f = true := by simp [fileFails, hm]
      simp [batchLoop, transcribe_file, hm, hf, List.filter_cons, ih]
    · rcases hw : we (OUTPUT_FOLDER ++ "/" ++ pyStem f ++ ".txt") with _ | e
      · have hf : fileFails model we f = false := by simp [fileFails, hm, hw]
        simp [batchLoop, transcribe_file, hm, hw, hf, List.filter_cons, ih]
      · have hf : fileFails model we f = true := by simp [fileFails, hm, hw]
        simp [batchLoop, transcribe_file, hm, hw, hf, List.filter_cons, ih]

theorem batchLoop_events (model : Model) (we : String → Option PyExc) (ts : Nat → String)
    (files : List String) : ∀ (idx : Nat) (st : Store),
    (batchLoop model we ts files idx st).2.2 =
      files.map (fun f =>
        if fileFails model we f = true then Event.fileError f
        else Event.wrote (OUTPUT_FOLDER ++ "/" ++ pyStem f ++ ".txt")) := by
  induction files with
  | nil => intro idx st; rfl
  | cons f rest ih =>
    intro idx st
    rcases hm : model f with e | raw
    · have hf : fileFails model we f = true := by simp [fileFails, hm]
      simp [batchLoop, transcribe_file, hm, hf, ih]
    · rcases hw : we (OUTPUT_FOLDER ++ "/" ++ pyStem f ++ ".txt") with _ | e
      · have hf : fileFails model we f = false := by simp [fileFails, hm, hw]
        simp [batchLoop, transcribe_file, hm, hw, hf, ih]
      · have hf : fileFails model we f = true := by simp [fileFails, hm, hw]
        simp [batchLoop, transcribe_file, hm, hw, hf, ih]

theorem batchLoop_store_mono (model : Model) (we : String → Option PyExc) (ts : Nat → String)
    (files : List String) : ∀ (idx : Nat) (st : Store) (p : String),
    (st.read p).isSome → (((batchLoop model we ts files idx st).2.1).read p).isSome := by
  induction files with
  | nil => intro idx st p h; exact h
  | cons f rest ih =>
    intro idx st p h
    rcases hm : model f with e | raw
    · simp only [batchLoop, transcribe_file, hm]
      exact ih _ _ _ h
    · rcases hw : we (OUTPUT_FOLDER ++ "/" ++ pyStem f ++ ".txt") with _ | e
      · simp only [batchLoop, transcribe_file, hm, hw]
        exact ih _ _ _ (Store.read_write_isSome _ _ _ _ h)
      · simp only [batchLoop, transcribe_file, hm, hw]
        exact ih _ _ _ h

theorem batchLoop_artifact (model : Model) (we : String → Option PyExc) (ts : Nat → String)
    (files : List String) : ∀ (idx : Nat) (st : Store) (f : String), f ∈ files →
    fileFails model we f = false →
    (((batchLoop model we ts files idx st).2.1).read
      (OUTPUT_FOLDER ++ "/" ++ pyStem f ++ ".txt")).isSome := by
  induction files with
  | nil => intro idx st f hf; exact absurd hf (List.not_mem_nil f)
  | cons g rest ih =>
    intro idx st f hf hff
    rcases List.mem_cons.mp hf with he | hmem
    · subst he
      rcases hm : model f with e | raw
      · exact absurd hff (by simp [fileFails, hm])
      · rcases hw : we (OUTPUT_FOLDER ++ "/" ++ pyStem f ++ ".txt") with _ | e
        · simp only [batchLoop, transcribe_file, hm, hw]
          exact batchLoop_store_mono model we ts rest _ _ _
            (by rw [Store.read_write_self]; rfl)
        · exact absurd hff (by simp [fileFails, hm, hw])
    · rcases hm : model g with e | raw
      · simp only [batchLoop, transcribe_file, hm]
        exact ih _ _ _ hmem hff
      · rcases hw : we (OUTPUT_FOLDER ++ "/" ++ pyStem g ++ ".txt") with _ | e
        · simp only [batchLoop, transcribe_file, hm, hw]
          exact ih _ _ _ hmem hff
        · simp only [batchLoop, transcribe_file, hm, hw]
          exact ih _ _ _ hmem hff

theorem globTailMatch_mp3_not_MP3 (n : String) :
    ¬(globTailMatch ".mp3" n = true ∧ globTailMatch ".MP3" n = true) := by
  rintro ⟨h1, h2⟩
  simp only [globTailMatch, show (".mp3" : String).data = ['.', 'm', 'p', '3'] from rfl,
    show (".MP3" : String).data = ['.', 'M', 'P', '3'] from rfl,
    List.length_cons, List.length_nil, beq_iff_eq] at h1 h2
  rw [h1] at h2
  exact absurd h2 (by decide)

theorem filter_append_perm_filter_or {α : Type} (p q : α → Bool) (l : List α)
    (hpq : ∀ a, ¬(p a = true ∧ q a = true)) :
    (l.filter p ++ l.filter q).Perm (l.filter (fun a => p a || q a)) := by
  induction l with
  | nil => simp
  | cons a l ih =>
    rcases hp : p a with _ | _
    · rcases hq : q a with _ | _
      · simpa [List.filter_cons, hp, hq] using ih
      · simp only [List.filter_cons, hp, hq, Bool.false_or, if_true, if_false]
        exact List.perm_middle.trans (ih.cons a)
    · have hq : q a = false := by
        rcases hqq : q a with _ | _
        · rfl
        · exact absurd ⟨hp, hqq⟩ (hpq a)
      simp only [List.filter_cons, hp, hq, Bool.true_or, if_true, if_false]
      exact ih.cons a

theorem pySortByLowerName_sorted (names : List String) :
    (pySortByLowerName names).Pairwise
      (fun a b => (strLower a).data ≤ (strLower b).data) := by
  haveI : IsTotal String (fun a b => (strLower a).data ≤ (strLower b).data) :=
    ⟨fun a b => le_total _ _⟩
  haveI : IsTrans String (fun a b => (strLower a).data ≤ (strLower b).data) :=
    ⟨fun a b c hab hbc => le_trans hab hbc⟩
  exact List.sorted_insertionSort _ names

theorem pySortByLowerName_perm (names : List String) :
    (pySortByLowerName names).Perm names :=
  List.perm_insertionSort _ names

theorem artifactContent_data (f ts text : String) :
    (artifactContent f ts text).data =
      ("Transcription of: ".data ++ (pyName f).data) ++ '\n' ::
      (("Generated on: ".data ++ ts.data) ++ '\n' ::
      ("Model used: whisper-base".data ++ '\n' ::
      (List.replicate 60 '=' ++ '\n' ::
      ('\n' :: text.data)))) := by
  have h3 : sepLine.data = List.replicate 60 '=' := by decide
  simp only [artifactContent, MODEL_SIZE, String.data_append, List.append_assoc, h3,
    List.cons_append, List.nil_append]

/-! ### Claims -/

/-- C1 (amended): for every directory target, `get_mp3_files` returns exactly
the entries directly inside it that one of the two glob patterns matches --
i.e. whose name ends in literally `".mp3"` or literally `".MP3"` (glob
matching is case-sensitive on POSIX, so mixed-case extensions such as
`".Mp3"` are excluded, and no case-variant duplicate matches can arise, there
being no deduplication step in the code) -- rendered as `dir/name` and sorted
lexicographically by case-insensitively lowered filename, ascending; in
particular a directory containing exactly {a.mp3, B.MP3, c.txt} yields
[d/a.mp3, d/B.MP3] and c.txt is excluded. -/
theorem C1_dir_discovery :
    (∀ (d : String) (entries : List String), ∃ l : List String,
      get_mp3_files d (PathKind.dir entries) = l.map (fun n => d ++ "/" ++ n) ∧
      l.Perm (entries.filter (fun n => globTailMatch ".mp3" n || globTailMatch ".MP3" n)) ∧
      l.Pairwise (fun a b => (strLower a).data ≤ (strLower b).data)) ∧
    get_mp3_files "d" (PathKind.dir ["a.mp3", "B.MP3", "c.txt"]) = ["d/a.mp3", "d/B.MP3"] := by
  constructor
  · intro d entries
    refine ⟨pySortByLowerName
      (entries.filter (globTailMatch ".mp3") ++ entries.filter (globTailMatch ".MP3")),
      rfl, ?_, pySortByLowerName_sorted _⟩
    exact (pySortByLowerName_perm _).trans
      (filter_append_perm_filter_or _ _ _ (fun n => globTailMatch_mp3_not_MP3 n))
  · decide

/-- C1 counterexample: the entry `a.Mp3` has extension `".mp3"`
case-insensitively, yet `get_mp3_files` returns nothing for a directory
containing exactly that file, because the two glob patterns `*.mp3` and
`*.MP3` are case-sensitive. -/
theorem C1_counterexample :
    specExtMatchesMp3 "a.Mp3" = true ∧
    get_mp3_files "d" (PathKind.dir ["a.Mp3"]) = [] :=
  ⟨by decide, by decide⟩

/-- C5 (amended): when the model call raises, `transcribe_file` propagates the
model's exception to its caller unchanged -- the error the invoker fails with
IS the original cause; no `TranscriptionError` wrapper exists in the code. -/
theorem C5_error_propagation (model : Model) (f output_dir : String)
    (we : String → Option PyExc) (ts : String) (st : Store) (e : PyExc)
    (hm : model f = Except.error e) :
    transcribe_file model f output_dir we ts st = Except.error e := by
  simp [transcribe_file, hm]

/-- C5 witness: a model that raises on `ep1.mp3` makes `transcribe_file` fail
with that very exception. -/
theorem C5_error_propagation_witness :
    transcribe_file (fun _ => Except.error (PyExc.runtime "corrupt audio")) "ep1.mp3"
        OUTPUT_FOLDER (fun _ => none) "TS" [] =
      Except.error (PyExc.runtime "corrupt audio") :=
  C5_error_propagation _ "ep1.mp3" OUTPUT_FOLDER (fun _ => none) "TS" [] _ rfl

/-- C5 counterexample: when the model call raises, the exception
`transcribe_file` fails with is the raw model exception, which is not a
`TranscriptionError` wrapper carrying the cause. -/
theorem C5_counterexample :
    transcribe_file (fun _ => Except.error (PyExc.runtime "corrupt audio")) "ep1.mp3"
        OUTPUT_FOLDER (fun _ => none) "TS" [] =
      Except.error (PyExc.runtime "corrupt audio") ∧
    (PyExc.runtime "corrupt audio").isTranscriptionError = false ∧
    (Except.error (PyExc.runtime "corrupt audio") : Except PyExc (String × Store)) ≠
      Except.error (PyExc.transcriptionError (PyExc.runtime "corrupt audio")) :=
  ⟨by decide, rfl, by decide⟩

/-- C8: a target that is an existing single file whose extension matches
`".mp3"` case-insensitively is returned as the one-element list containing
exactly that path. -/
theorem C8_single_file (p : String) (h : strLower (pySuffix p) = ".mp3") :
    get_mp3_files p PathKind.file = [p] := by
  simp [get_mp3_files, h]

/-- C8 witness at the file `ep1.mp3`. -/
theorem C8_single_file_witness :
    strLower (pySuffix "ep1.mp3") = ".mp3" ∧
    get_mp3_files "ep1.mp3" PathKind.file = ["ep1.mp3"] :=
  ⟨by decide, C8_single_file "ep1.mp3" (by decide)⟩

/-- C9: a target that is neither an existing file nor an existing directory
yields the empty list (and no error: the embedding of `get_mp3_files` is a
total function). -/
theorem C9_missing_target (p : String) : get_mp3_files p PathKind.missing = [] := rfl

/-- C3: a successful `transcribe_file` call writes an artifact at
`output/<stem>.txt` whose content splits on newlines into, in exact order:
the line `Transcription of: <source name>`, the line `Generated on: <ts>`,
the line `Model used: whisper-base` (model family `whisper`, size `base`),
a separator line of 60 repeated `'='`, one blank line, and then the trimmed
transcript text verbatim. -/
theorem C3_artifact_format (model : Model) (f : String)
    (we : String → Option PyExc) (ts : String) (st : Store) (raw : String)
    (hm : model f = Except.ok raw)
    (hw : we (OUTPUT_FOLDER ++ "/" ++ pyStem f ++ ".txt") = none)
    (hname : '\n' ∉ (pyName f).data)
    (hts : '\n' ∉ ts.data) :
    transcribe_file model f OUTPUT_FOLDER we ts st =
      Except.ok (OUTPUT_FOLDER ++ "/" ++ pyStem f ++ ".txt",
        st.write (OUTPUT_FOLDER ++ "/" ++ pyStem f ++ ".txt")
          (artifactContent f ts (pyStrip raw))) ∧
    splitOnChar '\n' (artifactContent f ts (pyStrip raw)).data =
      ("Transcription of: " ++ pyName f).data ::
      ("Generated on: " ++ ts).data ::
      "Model used: whisper-base".data ::
      List.replicate 60 '=' ::
      [] ::
      splitOnChar '\n' (pyStrip raw).data := by
  constructor
  · simp [transcribe_file, hm, hw]
  · have hx1 : '\n' ∉ "Transcription of: ".data ++ (pyName f).data := by
      intro hc
      rcases List.mem_append.mp hc with hc | hc
      · exact absurd hc (by decide)
      · exact hname hc
    have hx2 : '\n' ∉ "Generated on: ".data ++ ts.data := by
      intro hc
      rcases List.mem_append.mp hc with hc | hc
      · exact absurd hc (by decide)
      · exact hts hc
    have hx3 : '\n' ∉ ("Model used: whisper-base" : String).data := by decide
    have hx4 : '\n' ∉ List.replicate 60 '=' := by decide
    rw [artifactContent_data, splitOnChar_line _ _ _ hx1, splitOnChar_line _ _ _ hx2,
      splitOnChar_line _ _ _ hx3, splitOnChar_line _ _ _ hx4, splitOnChar_sep_cons]
    simp [String.data_append]

/-- C3 witness: transcribing `ep1.mp3` with a model returning
`"  hello world  "`. -/
theorem C3_artifact_format_witness :
    (transcribe_file (fun _ => Except.ok "  hello world  ") "ep1.mp3" OUTPUT_FOLDER
        (fun _ => none) "2024-01-01 12:00:00" [] =
      Except.ok (OUTPUT_FOLDER ++ "/" ++ pyStem "ep1.mp3" ++ ".txt",
        Store.write [] (OUTPUT_FOLDER ++ "/" ++ pyStem "ep1.mp3" ++ ".txt")
          (artifactContent "ep1.mp3" "2024-01-01 12:00:00" (pyStrip "  hello world  ")))) ∧
    splitOnChar '\n'
        (artifactContent "ep1.mp3" "2024-01-01 12:00:00" (pyStrip "  hello world  ")).data =
      ("Transcription of: " ++ pyName "ep1.mp3").data ::
      ("Generated on: " ++ ("2024-01-01 12:00:00" : String)).data ::
      "Model used: whisper-base".data ::
      List.replicate 60 '=' ::
      [] ::
      splitOnChar '\n' (pyStrip "  hello world  ").data :=
  C3_artifact_format (fun _ => Except.ok "  hello world  ") "ep1.mp3" (fun _ => none)
    "2024-01-01 12:00:00" [] "  hello world  " rfl rfl (by decide) (by decide)

/-- C7: two successive successful `transcribe_file` calls for source files
with the same stem target the same output path, and the second call
overwrites the first artifact: the final content at that path is exactly the
artifact built from the second call's transcript. -/
theorem C7_overwrite (model₁ model₂ : Model) (f₁ f₂ : String)
    (we : String → Option PyExc) (ts₁ ts₂ : String) (st st₁ st₂ : Store)
    (raw₂ : String) (p₁ p₂ : String)
    (hstem : pyStem f₁ = pyStem f₂)
    (hm₂ : model₂ f₂ = Except.ok raw₂)
    (h₁ : transcribe_file model₁ f₁ OUTPUT_FOLDER we ts₁ st = Except.ok (p₁, st₁))
    (h₂ : transcribe_file model₂ f₂ OUTPUT_FOLDER we ts₂ st₁ = Except.ok (p₂, st₂)) :
    p₂ = p₁ ∧ st₂.read p₁ = some (artifactContent f₂ ts₂ (pyStrip raw₂)) := by
  rcases hm₁ : model₁ f₁ with e | raw₁
  · simp [transcribe_file, hm₁] at h₁
  · rcases hw₁ : we (OUTPUT_FOLDER ++ "/" ++ pyStem f₁ ++ ".txt") with _ | e
    · rcases hw₂ : we (OUTPUT_FOLDER ++ "/" ++ pyStem f₂ ++ ".txt") with _ | e
      · simp only [transcribe_file, hm₁, hw₁, Except.ok.injEq, Prod.mk.injEq] at h₁
        simp only [transcribe_file, hm₂, hw₂, Except.ok.injEq, Prod.mk.injEq] at h₂
        obtain ⟨hp₁, hst₁⟩ := h₁
        obtain ⟨hp₂, hst₂⟩ := h₂
        subst hp₁ hp₂ hst₁ hst₂
        refine ⟨by rw [hstem], ?_⟩
        rw [hstem]
        exact Store.read_write_self _ _ _
      · rw [hstem] at hw₁
        rw [hw₁] at hw₂
        exact absurd hw₂ (by simp)
    · simp [transcribe_file, hm₁, hw₁] at h₁

/-- C7 witness: writing `ep1.mp3` twice; the final artifact holds the second
transcript. -/
theorem C7_overwrite_witness :
    ("output/ep1.txt" : String) = "output/ep1.txt" ∧
    (Store.write
        (Store.write [] "output/ep1.txt" (artifactContent "ep1.mp3" "T1" (pyStrip " one ")))
        "output/ep1.txt" (artifactContent "ep1.mp3" "T2" (pyStrip " two "))).read
      "output/ep1.txt" = some (artifactContent "ep1.mp3" "T2" (pyStrip " two ")) :=
  C7_overwrite (fun _ => Except.ok " one ") (fun _ => Except.ok " two ") "ep1.mp3" "ep1.mp3"
    (fun _ => none) "T1" "T2" []
    (Store.write [] "output/ep1.txt" (artifactContent "ep1.mp3" "T1" (pyStrip " one ")))
    (Store.write
      (Store.write [] "output/ep1.txt" (artifactContent "ep1.mp3" "T1" (pyStrip " one ")))
      "output/ep1.txt" (artifactContent "ep1.mp3" "T2" (pyStrip " two ")))
    " two " "output/ep1.txt" "output/ep1.txt"
    rfl rfl (by decide) (by decide)

/-- C2: in a run over a non-empty discovered file list, the batch exits with
status 0 whatever the per-file failures are; the output artifacts are exactly
those of the non-failing files, in discovery order; the summary reports the
number of successes out of the total attempted; every failing file's failure
is recorded and every non-failing file's artifact exists in the output
directory afterwards -- one failing file never aborts the batch. -/
theorem C2_failure_isolation (env : Env) (target : String) (kind : PathKind) (st : Store)
    (h : get_mp3_files target kind ≠ []) :
    (main env target kind st).exitCode = 0 ∧
    (main env target kind st).output_files =
      ((get_mp3_files target kind).filter
        (fun f => !fileFails (env.load MODEL_SIZE) env.writeErr f)).map
        (fun f => OUTPUT_FOLDER ++ "/" ++ pyStem f ++ ".txt") ∧
    (main env target kind st).summary =
      some (((get_mp3_files target kind).filter
          (fun f => !fileFails (env.load MODEL_SIZE) env.writeErr f)).length,
        (get_mp3_files target kind).length) ∧
    (∀ f ∈ get_mp3_files target kind,
      fileFails (env.load MODEL_SIZE) env.writeErr f = true →
      Event.fileError f ∈ (main env target kind st).events) ∧
    (∀ f ∈ get_mp3_files target kind,
      fileFails (env.load MODEL_SIZE) env.writeErr f = false →
      (((main env target kind st).store).read
        (OUTPUT_FOLDER ++ "/" ++ pyStem f ++ ".txt")).isSome) := by
  rcases hfiles : get_mp3_files target kind with _ | ⟨f₀, rest⟩
  · exact absurd hfiles h
  · refine ⟨by simp [main, hfiles], ?_, ?_, ?_, ?_⟩
    · simp [main, hfiles, batchLoop_output_files]
    · simp [main, hfiles, batchLoop_output_files]
    · intro f hf hff
      simp only [main, hfiles, List.isEmpty_cons]
      refine List.mem_cons_of_mem _ ?_
      rw [batchLoop_events]
      refine List.mem_map.mpr ⟨f, hf, ?_⟩
      simp [hff]
    · intro f hf hff
      simp only [main, hfiles, List.isEmpty_cons]
      exact batchLoop_artifact _ _ _ _ _ _ _ hf hff

/-- C2 witness: a batch of three files where the second raises during
transcription yields two artifacts, a summary of 2 of 3, exit status 0, and
the failure of the second file recorded. -/
theorem C2_failure_isolation_witness :
    (main envB "d" (PathKind.dir ["f1.mp3", "f2.mp3", "f3.mp3"]) []).exitCode = 0 ∧
    (main envB "d" (PathKind.dir ["f1.mp3", "f2.mp3", "f3.mp3"]) []).output_files =
      ((get_mp3_files "d" (PathKind.dir ["f1.mp3", "f2.mp3", "f3.mp3"])).filter
        (fun f => !fileFails (envB.load MODEL_SIZE) envB.writeErr f)).map
        (fun f => OUTPUT_FOLDER ++ "/" ++ pyStem f ++ ".txt") ∧
    (main envB "d" (PathKind.dir ["f1.mp3", "f2.mp3", "f3.mp3"]) []).summary =
      some (2, 3) ∧
    Event.fileError "d/f2.mp3" ∈
      (main envB "d" (PathKind.dir ["f1.mp3", "f2.mp3", "f3.mp3"]) []).events ∧
    (((main envB "d" (PathKind.dir ["f1.mp3", "f2.mp3", "f3.mp3"]) []).store).read
      (OUTPUT_FOLDER ++ "/" ++ pyStem "d/f1.mp3" ++ ".txt")).isSome := by
  have h := C2_failure_isolation envB "d" (PathKind.dir ["f1.mp3", "f2.mp3", "f3.mp3"]) []
    (by decide)
  refine ⟨h.1, h.2.1, ?_, ?_, ?_⟩
  · rw [h.2.2.1]; decide
  · exact h.2.2.2.1 "d/f2.mp3" (by decide) (by decide)
  · exact h.2.2.2.2 "d/f1.mp3" (by decide) (by decide)

/-- C4: a run whose discovered file list is empty prints the usage text and
exits with status 1, produces no artifact (the output directory is
unchanged), records no event at all -- in particular the model is never
loaded -- and prints no summary; conversely every run with a non-empty list
exits 0, so the empty list is the only non-zero exit path. -/
theorem C4_empty_input :
    (∀ (env : Env) (target : String) (kind : PathKind) (st : Store),
      get_mp3_files target kind = [] →
      main env target kind st =
        { exitCode := 1, events := [], output_files := [], store := st, summary := none }) ∧
    (∀ (env : Env) (target : String) (kind : PathKind) (st : Store),
      get_mp3_files target kind ≠ [] → (main env target kind st).exitCode = 0) := by
  constructor
  · intro env target kind st h
    simp [main, h]
  · intro env target kind st h
    rcases hfiles : get_mp3_files target kind with _ | ⟨f₀, rest⟩
    · exact absurd hfiles h
    · simp [main, hfiles]

/-- C4 witness: a missing target yields exit 1, no events, no artifacts; a
non-empty directory yields exit 0. -/
theorem C4_empty_input_witness :
    main envB "nope" PathKind.missing [] =
      { exitCode := 1, events := [], output_files := [], store := [], summary := none } ∧
    (main envB "d" (PathKind.dir ["a.mp3"]) []).exitCode = 0 :=
  ⟨C4_empty_input.1 envB "nope" PathKind.missing [] rfl,
   C4_empty_input.2 envB "d" (PathKind.dir ["a.mp3"]) [] (by decide)⟩

/-- C6: in every run that processes at least one file, the model-load event
occurs exactly once in the whole run, and it is the first event -- before any
per-file processing; the load is never repeated per file. -/
theorem C6_single_model_load (env : Env) (target : String) (kind : PathKind) (st : Store)
    (h : get_mp3_files target kind ≠ []) :
    (main env target kind st).events.head? = some Event.loadedModel ∧
    (main env target kind st).events.count Event.loadedModel = 1 := by
  rcases hfiles : get_mp3_files target kind with _ | ⟨f₀, rest⟩
  · exact absurd hfiles h
  · constructor
    · simp [main, hfiles]
    · have hz : (batchLoop (env.load MODEL_SIZE) env.writeErr env.ts (f₀ :: rest) 0
          st).2.2.count Event.loadedModel = 0 := by
        rw [List.count_eq_zero, batchLoop_events]
        intro hmem
        rcases List.mem_map.mp hmem with ⟨g, _, hg⟩
        by_cases hfg : fileFails (env.load MODEL_SIZE) env.writeErr g = true
        · rw [if_pos hfg] at hg
          exact Event.noConfusion hg
        · rw [if_neg hfg] at hg
          exact Event.noConfusion hg
      simp [main, hfiles, List.count_cons, hz]

/-- C6 witness: the three-file batch loads the model once, first. -/
theorem C6_single_model_load_witness :
    (main envB "d" (PathKind.dir ["f1.mp3", "f2.mp3", "f3.mp3"]) []).events.head? =
      some Event.loadedModel ∧
    (main envB "d" (PathKind.dir ["f1.mp3", "f2.mp3", "f3.mp3"]) []).events.count
      Event.loadedModel = 1 :=
  C6_single_model_load envB "d" (PathKind.dir ["f1.mp3", "f2.mp3", "f3.mp3"]) [] (by decide)

/-- C10: a batch of two distinct files with the same stem that both
transcribe successfully is reported as 2 successes of 2, the generated-files
list holds the (identical) output path twice, yet the output directory
afterwards holds exactly one artifact at that path, containing the second
file's transcript -- the later write silently overwrote the earlier one. -/
theorem C10_stem_collision (env : Env) (target : String) (kind : PathKind)
    (f₁ f₂ raw₁ raw₂ : String)
    (hdisc : get_mp3_files target kind = [f₁, f₂])
    (hstem : pyStem f₁ = pyStem f₂)
    (hm₁ : env.load MODEL_SIZE f₁ = Except.ok raw₁)
    (hm₂ : env.load MODEL_SIZE f₂ = Except.ok raw₂)
    (hw : env.writeErr (OUTPUT_FOLDER ++ "/" ++ pyStem f₂ ++ ".txt") = none) :
    (main env target kind []).summary = some (2, 2) ∧
    (main env target kind []).output_files =
      [OUTPUT_FOLDER ++ "/" ++ pyStem f₂ ++ ".txt",
       OUTPUT_FOLDER ++ "/" ++ pyStem f₂ ++ ".txt"] ∧
    (main env target kind []).store =
      [(OUTPUT_FOLDER ++ "/" ++ pyStem f₂ ++ ".txt",
        artifactContent f₂ (env.ts 1) (pyStrip raw₂))] := by
  have hw₁ : env.writeErr (OUTPUT_FOLDER ++ "/" ++ pyStem f₁ ++ ".txt") = none := by
    rw [hstem]; exact hw
  simp only [main, hdisc, List.isEmpty_cons, batchLoop, transcribe_file, hm₁, hm₂, hw₁, hw]
  simp [Store.write, hstem]

/-- C10 witness: the entries `a.mp3` and `a.MP3` of one directory are two
distinct discovered files with stem `a`; both succeed, the summary says 2 of
2, and one artifact file remains. -/
theorem C10_stem_collision_witness :
    (main envB "d" (PathKind.dir ["a.mp3", "a.MP3"]) []).summary = some (2, 2) ∧
    (main envB "d" (PathKind.dir ["a.mp3", "a.MP3"]) []).output_files =
      [OUTPUT_FOLDER ++ "/" ++ pyStem "d/a.MP3" ++ ".txt",
       OUTPUT_FOLDER ++ "/" ++ pyStem "d/a.MP3" ++ ".txt"] ∧
    (main envB "d" (PathKind.dir ["a.mp3", "a.MP3"]) []).store =
      [(OUTPUT_FOLDER ++ "/" ++ pyStem "d/a.MP3" ++ ".txt",
        artifactContent "d/a.MP3" (envB.ts 1) (pyStrip " text "))] :=
  C10_stem_collision envB "d" (PathKind.dir ["a.mp3", "a.MP3"]) "d/a.mp3" "d/a.MP3"
    " text " " text " (by decide) (by decide) (by decide) (by decide) (by decide)

end SJT

-- scratch examples
example : SJT.get_mp3_files "d" (.dir ["a.mp3", "B.MP3", "c.txt"]) = ["d/a.mp3", "d/B.MP3"] := by decide
example : SJT.get_mp3_files "d" (.dir ["a.Mp3"]) = [] := by decide
example : SJT.pySuffix "a.Mp3" = ".Mp3" := by decide
example : SJT.strLower (SJT.pySuffix "a.Mp3") = ".mp3" := by decide
example : SJT.get_mp3_files "ep1.mp3" .file = ["ep1.mp3"] := by decide
example : SJT.pyStem "d/a.MP3" = "a" := rfl
example : SJT.pyStrip "  hi \n\t" = "hi" := rfl
example : SJT.get_mp3_files "d" (.dir ["a.mp3", "a.MP3"]) = ["d/a.mp3", "d/a.MP3"] := by decide
